import Mathlib

/-!
Shallow embedding of the question-routing and model-dispatch core of
`ai-agent-deployment/app/agent.py`: the keyword classifier
(`detect_question_type`), the context builders (`build_osu_context`,
`get_osu_context`, `get_code_context`, and the `system_prompt` selection in
`simulate_ai_processing`), and the Ollama dispatcher (`process_with_ollama`):
model/timeout selection, payload assembly, error classification, and the
request handlers' error conversion.

External effects are made explicit: the outcome of the live majors fetch is a
parameter of type `Option (List String)` (`none` models a raised exception,
`some l` a returned list), and metric-counter increments are returned as an
explicit list of labels.
-/

set_option maxRecDepth 40000

/-- Python's substring test `needle in hay` on strings: `needle` occurs
contiguously inside `hay`. -/
def strIncludes (hay needle : String) : Bool :=
  decide (needle.data <:+: hay.data)

/-- OSU-specific keywords (`agent.py` line 445). -/
def osu_keywords : List String :=
  ["osu", "buckeye", "class", "registration", "tuition", "fee", "deadline",
   "semester", "drop", "add", "refund", "payment", "buckeyelink",
   "columbus campus", "regional campus", "major", "degree", "minor",
   "advisor", "advising", "graduate", "undergraduate", "college", "gpa",
   "transcript", "ohio state"]

/-- Code/Technical keywords (`agent.py` line 448; the source lists
"kubernetes" twice and the duplicate is kept). -/
def code_keywords : List String :=
  ["python", "javascript", "java", "docker", "kubernetes", "k8s", "git",
   "api", "database", "react", "node", "sql", "code", "program", "function",
   "algorithm", "debug", "error", "exception", "kubernetes", "container",
   "devops", "cloud", "aws", "terraform", "yaml", "json", "rest", "http",
   "css", "html"]

/-- Python's `str.lower()` restricted to its per-character action: lower-case
every character (the messages in play are ASCII, where `Char.toLower` agrees
with Python). -/
def lowerStr (s : String) : String :=
  ⟨s.data.map Char.toLower⟩

/-- `detect_question_type` (`agent.py` lines 440-455): lower-case the
message, return "osu" if any OSU keyword is a substring, else "technical"
if any code keyword is a substring, else "general". -/
def detect_question_type (message : String) : String :=
  let message_lower := lowerStr message
  if osu_keywords.any (fun keyword => strIncludes message_lower keyword) then
    "osu"
  else if code_keywords.any (fun keyword => strIncludes message_lower keyword) then
    "technical"
  else
    "general"

/-- Static majors dataset `OSU_MAJORS` (`agent.py` lines 257-336). -/
def OSU_MAJORS : List String :=
  ["Accounting", "Actuarial Science", "Aerospace Engineering",
   "African American and African Studies", "Agribusiness",
   "Agribusiness and Applied Economics", "Agricultural Communication",
   "Agricultural Systems Management", "Agriscience Education", "Agronomy",
   "Ancient History and Classics", "Animal Sciences", "Anthropological Sciences",
   "Anthropology", "Arabic", "Architecture", "Art", "Art Education", "Arts Management",
   "Astronomy and Astrophysics", "Atmospheric Sciences", "Aviation", "Aviation Management",
   "Biochemistry", "Biology", "Biomedical Engineering", "Biomedical Science",
   "Business Administration", "Business Management", "Chemical Engineering", "Chemistry",
   "Child and Youth Studies", "Chinese", "City and Regional Planning", "Civil Engineering",
   "Classics", "Communication", "Community Leadership", "Comparative Studies",
   "Computer and Information Science", "Computer Science and Engineering",
   "Construction Systems Management", "Consumer and Family Financial Services",
   "Criminology and Criminal Justice Studies", "Dance", "Data Analytics", "Dental Hygiene",
   "Earth Sciences", "Economics", "Economics - Business",
   "Education - Integrated Language Arts/English Education",
   "Education - Middle Childhood Education", "Education - Primary Education",
   "Education - Science and Mathematics Education", "Education - Special Education",
   "Education - Teaching English to Speakers of Other Languages",
   "Education - Technical Education and Training", "Education - World Language Education",
   "Electrical and Computer Engineering", "Engineering Physics", "Engineering Technology",
   "English", "Entomology", "Environment and Natural Resources",
   "Environment, Economy, Development and Sustainability", "Environmental Engineering",
   "Environmental Policy and Decision Making", "Environmental Science",
   "Evolution and Ecology", "Exercise Science Education", "Experiential Media Design",
   "Fashion and Retail Studies", "Film Studies", "Finance", "Food Business Management",
   "Food Science and Technology", "Food, Agricultural and Biological Engineering",
   "Forensic Anthropology", "Forestry, Fisheries and Wildlife", "French",
   "French and Francophone Studies", "Geographic Information Science", "Geography", "German",
   "Health and Rehabilitation Sciences", "Health Information Management and Systems",
   "Health Promotion, Nutrition and Exercise Science", "Health Sciences",
   "Hebrew and Jewish Studies", "History", "History of Art", "Horticulture and Crop Science",
   "Hospitality Management", "Human Development and Family Science", "Human Nutrition",
   "Human Resources", "Industrial and Systems Engineering", "Industrial Design",
   "Information Systems", "Interior Design", "International Business", "International Studies",
   "Islamic Studies", "Italian", "Italian Studies", "Japanese", "Journalism", "Korean",
   "Landscape Architecture", "Leadership", "Linguistics", "Logistics Management", "Marketing",
   "Materials Science and Engineering", "Mathematics", "Mechanical Engineering",
   "Medical Anthropology", "Medical Laboratory Science", "Microbiology", "Modern Greek",
   "Molecular Genetics", "Moving-Image Production", "Music", "Music - Composition",
   "Music - Education", "Music - Jazz Studies", "Music - Performance (orchestral instruments)",
   "Music - Performance (piano)", "Music - Performance (voice)", "Natural Resource Management",
   "Neuroscience", "Nursing", "Occupational Therapy", "Operations Management",
   "Pharmaceutical Sciences", "Philosophy", "Philosophy, Politics and Economics",
   "Physical Therapy", "Physics", "Plant Pathology", "Political Science", "Portuguese",
   "Pre-Dentistry", "Pre-Law", "Pre-Medicine", "Pre-Optometry", "Pre-Pharmacy",
   "Pre-Veterinary Medicine", "Professional Golf Management", "Psychology", "Public Health",
   "Public Management, Leadership and Policy", "Public Policy Analysis",
   "Radiologic Sciences and Therapy", "Real Estate and Urban Analysis", "Religious Studies",
   "Respiratory Therapy", "Romance Studies", "Russian", "Social Sciences Air Transportation",
   "Social Work", "Sociology", "Spanish", "Speech and Hearing Science", "Sport Industry",
   "Statistics", "Theatre", "Vision Science", "Visual Communication Design",
   "Welding Engineering", "Women\x27s, Gender and Sexuality Studies", "World Literatures",
   "World Politics", "Zoology"]

/-- The fixed text of the OSU context template that precedes the interpolated
majors line (`agent.py` lines 418-428). -/
def osu_context_header : String :=
  "You are an Ohio State University assistant. Answer OSU questions specifically.\n\nSpring 2026 Dates:\n- Jan 5: Tuition due\n- Jan 12: Classes start\n- Jan 16: Add/drop deadline\n- Jan 23: Drop deadline with refund\n\nMajors at OSU:\nOSU offers 200+ undergraduate majors.\n"

/-- The fixed text of the OSU context template that follows the interpolated
majors line (`agent.py` lines 429-436). -/
def osu_context_footer : String :=
  "\nTo declare/change major: Meet with academic advisor in your college.\n\nResources:\n- BuckeyeLink: buckeyelink.osu.edu (registration, grades, schedule)\n- Advising: advising.osu.edu\n- Financial Aid: sfa.osu.edu\n\nAlways provide OSU-specific answers with links when possible."

/-- `build_osu_context` (`agent.py` lines 408-437): if the given majors list
is non-empty, interpolate its size and a 20-entry sample; otherwise use the
hard-coded popular-majors line. The result is the f-string template
with the majors line in the middle. -/
def build_osu_context (majors_list : List String) : String :=
  let majors_line :=
    if 0 < majors_list.length then
      "OSU offers " ++ toString majors_list.length ++
        "+ undergraduate majors including: " ++
        String.intercalate ", " (majors_list.take 20) ++
        ".\nFull list: https://undergrad.osu.edu/majors-and-academics/majors"
    else
      "Popular majors: Computer Science, Engineering, Business, Nursing, Psychology, Biology, Communications. Browse all at: https://undergrad.osu.edu/majors-and-academics/majors"
  osu_context_header ++ majors_line ++ osu_context_footer

/-- `get_osu_context` (`agent.py` lines 339-353). The live fetch
`fetch_osu_majors()` is an external network effect; its outcome is the
parameter `fetched`: `none` models the fetch raising an exception (swallowed
by the bare `except`), `some live` models it returning the list `live`. The
live list is used only when it has more than 10 entries (the Python guard
`live and len(live) > 10` is equivalent to `len(live) > 10`); every other
outcome falls back to the static `OSU_MAJORS`. -/
def get_osu_context (fetched : Option (List String)) : String :=
  match fetched with
  | some live =>
      if 10 < live.length then build_osu_context live
      else build_osu_context OSU_MAJORS
  | none => build_osu_context OSU_MAJORS

/-- `get_code_context` (`agent.py` lines 458-483): the fixed technical
system prompt. -/
def get_code_context : String :=
  "You are a technical expert. IMPORTANT: Format responses like ChatGPT:\n\n**For code/commands:**\n1. Use clear markdown code blocks with language specified (```python, ```bash, ```yaml, etc)\n2. Make code easily copyable\n3. Add explanations AFTER code blocks\n4. Show example outputs when relevant\n\n**Structure:**\n- Brief explanation first\n- Code/command in marked block\n- What it does\n- Example or usage\n\n**Example format:**\nHere\x27s how to deploy with Kubernetes:\n\n```bash\nkubectl apply -f deployment.yaml\nkubectl rollout status deployment/myapp\n```\n\nThis deploys your app and waits for rollout."

/-- The system prompt attached per category by `simulate_ai_processing`
(`agent.py` lines 504-513); this is the spec contract
`build_context(category)`. The `fetched` parameter is the outcome of the
reference-dataset fetch, used only for the osu category. -/
def build_context (question_type : String) (fetched : Option (List String)) : String :=
  if question_type = "osu" then get_osu_context fetched
  else if question_type = "technical" then get_code_context
  else "Helpful assistant. Answer concisely."

/-- The JSON body `process_with_ollama` posts to the backend
(`agent.py` lines 548-553). The JSON literal 0.7 is the exact decimal
7/10 here. -/
structure OllamaPayload where
  model : String
  prompt : String
  stream : Bool
  temperature : Rat
deriving DecidableEq, Repr

/-- The happy-path request `process_with_ollama` assembles
(`agent.py` lines 526-557): `question_type` and `system_prompt` are read from
the context dict (defaults "general" and "You are a helpful AI assistant."
are supplied by the callers in `simulate_ai_processing`); the model is
"deepseek-coder" for technical and "phi" otherwise; the prompt is the
system prompt, a user-turn marker, the raw message, and an assistant-turn
marker; the request is non-streaming ("stream": False); the transport
timeout (second component, in seconds) is 90 for technical and 70
otherwise, enforced by the `requests.post(..., timeout=timeout)` call. -/
def process_with_ollama_request (message system_prompt question_type : String) :
    OllamaPayload × Nat :=
  let ollama_model := if question_type = "technical" then "deepseek-coder" else "phi"
  let prompt_text := system_prompt ++ "\n\nUser: " ++ message ++ "\n\nAssistant:"
  let payload : OllamaPayload :=
    { model := ollama_model, prompt := prompt_text, stream := false,
      temperature := (0.7 : Rat) }
  let timeout_allowance := if question_type = "technical" then 90 else 70
  (payload, timeout_allowance)

/-- The three backend failure kinds distinguished by the except-clauses of
`process_with_ollama`: `requests.exceptions.ConnectionError`,
`requests.exceptions.Timeout`, and any other exception (carrying `str(e)`). -/
inductive BackendFailure where
  | connectionRefused : BackendFailure
  | timedOut : BackendFailure
  | otherFailure : String → BackendFailure
deriving DecidableEq, Repr

/-- FastAPI/Starlette HTTPException as raised by the agent: a status code and
a detail string. -/
structure HTTPException where
  status_code : Nat
  detail : String
deriving DecidableEq, Repr

/-- The except-branches of `process_with_ollama` (`agent.py` lines 566-579).
First component: the labels under which the `OLLAMA_ERRORS` counter is
incremented, in order, before the exception is raised (the metric effect made
explicit). Second component: the HTTPException raised. ConnectionError
increments label "connection" and raises 503 with a detail naming the backend
URL; Timeout increments "timeout" and raises 504; the generic
`except Exception` branch raises 500 and increments no counter. -/
def process_with_ollama_failure (ollama_url : String) :
    BackendFailure → List String × HTTPException
  | BackendFailure.connectionRefused =>
      (["connection"],
        ⟨503, "Cannot connect to Ollama at " ++ ollama_url ++ ". Is it running?"⟩)
  | BackendFailure.timedOut =>
      (["timeout"], ⟨504, "Model response timed out. Try a simpler question."⟩)
  | BackendFailure.otherFailure e => ([], ⟨500, "Ollama error: " ++ e⟩)

/-- Python `str(e)` for a Starlette HTTPException; modelled from the library
(`starlette.exceptions.HTTPException.__str__`), which renders
"{status_code}: {detail}" with a literal colon-space between them. -/
def httpExceptionStr (e : HTTPException) : String :=
  toString e.status_code ++ ": " ++ e.detail

/-- What the `chat` handler (`agent.py` lines 229-251) returns when the
dispatcher fails: `except Exception as e` also catches the dispatcher's
HTTPException (HTTPException subclasses Exception in Python), and the handler
re-raises `HTTPException(500, "Chat error: " + str(e))`. -/
def chat_on_dispatch_failure (ollama_url : String) (f : BackendFailure) :
    HTTPException :=
  let e := (process_with_ollama_failure ollama_url f).2
  ⟨500, "Chat error: " ++ httpExceptionStr e⟩

/-- What the `process_message` handler (`agent.py` lines 205-226) returns when
the dispatcher fails: its `except Exception as e` likewise catches the
dispatcher's HTTPException and re-raises
`HTTPException(500, "Error processing message: " + str(e))`. -/
def process_on_dispatch_failure (ollama_url : String) (f : BackendFailure) :
    HTTPException :=
  let e := (process_with_ollama_failure ollama_url f).2
  ⟨500, "Error processing message: " ++ httpExceptionStr e⟩

/-! ### Helper lemmas -/

theorem strIncludes_iff (hay needle : String) :
    strIncludes hay needle = true ↔ needle.data <:+: hay.data := by
  simp [strIncludes]

theorem strIncludes_append_left (a b n : String)
    (h : strIncludes a n = true) : strIncludes (a ++ b) n = true := by
  rw [strIncludes_iff] at h ⊢
  obtain ⟨s, t, he⟩ := h
  exact ⟨s, t ++ b.data, by simp [String.data_append, ← List.append_assoc, he]⟩

theorem strIncludes_append_right (a b n : String)
    (h : strIncludes b n = true) : strIncludes (a ++ b) n = true := by
  rw [strIncludes_iff] at h ⊢
  obtain ⟨s, t, he⟩ := h
  exact ⟨a.data ++ s, t, by simp [String.data_append, List.append_assoc,
    List.append_assoc s n.data t ▸ he]⟩

theorem strIncludes_sandwich (a b n : String) :
    strIncludes (a ++ n ++ b) n = true := by
  rw [strIncludes_iff]
  exact ⟨a.data, b.data, by simp [String.data_append, List.append_assoc]⟩

theorem sample_in_build_osu_context (l : List String) (h : 0 < l.length) :
    strIncludes (build_osu_context l) (String.intercalate ", " (l.take 20)) = true := by
  dsimp only [build_osu_context]
  rw [if_pos h]
  exact strIncludes_append_left _ _ _ (strIncludes_append_right _ _ _
    (strIncludes_sandwich _ _ _))

theorem jan16_in_build_osu_context (l : List String) :
    strIncludes (build_osu_context l) "Jan 16" = true := by
  dsimp only [build_osu_context]
  apply strIncludes_append_left
  apply strIncludes_append_left
  decide

theorem buckeyelink_in_build_osu_context (l : List String) :
    strIncludes (build_osu_context l) "BuckeyeLink" = true := by
  dsimp only [build_osu_context]
  apply strIncludes_append_right
  decide

theorem header_length_le_build_osu_context (l : List String) :
    osu_context_header.length ≤ (build_osu_context l).length := by
  dsimp only [build_osu_context]
  rw [String.length_append, String.length_append]
  omega

theorem get_osu_context_cases (fetched : Option (List String)) :
    ∃ l : List String, get_osu_context fetched = build_osu_context l := by
  cases fetched with
  | none => exact ⟨OSU_MAJORS, rfl⟩
  | some live =>
      dsimp only [get_osu_context]
      by_cases h : 10 < live.length
      · rw [if_pos h]; exact ⟨live, rfl⟩
      · rw [if_neg h]; exact ⟨OSU_MAJORS, rfl⟩

/-! ### Claim theorems -/

/-- C1: the claim states that the dispatcher's classified HTTP status (503 for
connection refused, 504 for timeout, 500 otherwise) is returned to the caller
unchanged by the chat/process request handlers. The dispatcher does classify
statuses that way (first conjunct, with the 503 detail naming the backend
URL), but both handlers' blanket `except Exception` clauses catch the
dispatcher's HTTPException and re-raise status 500, so every dispatcher
failure reaches the caller as 500 (second and third conjuncts): the code
contradicts the claim. -/
theorem dispatcher_status_converted_to_500_by_handlers :
    ((process_with_ollama_failure "http://localhost:11434"
        BackendFailure.connectionRefused).2.status_code = 503
      ∧ strIncludes (process_with_ollama_failure "http://localhost:11434"
          BackendFailure.connectionRefused).2.detail "http://localhost:11434" = true
      ∧ (process_with_ollama_failure "http://localhost:11434"
          BackendFailure.timedOut).2.status_code = 504)
  ∧ (∀ f : BackendFailure,
      (chat_on_dispatch_failure "http://localhost:11434" f).status_code = 500)
  ∧ (∀ f : BackendFailure,
      (process_on_dispatch_failure "http://localhost:11434" f).status_code = 500) := by
  refine ⟨⟨rfl, by decide, rfl⟩, fun f => rfl, fun f => rfl⟩

/-- C2: `build_context(osu)` embeds the live provider list (its 20-entry
sample) exactly when that list has strictly more than 10 entries; with 10 or
fewer entries, or when the fetch raises (`fetched = none`), it embeds the
static fallback `OSU_MAJORS` sample instead. Totality of `build_context`
(never raising to the caller) holds by construction of the embedding, which
mirrors the source's swallowing `try/except`. -/
theorem osu_context_fallback_policy (fetched : Option (List String)) :
    (∀ live : List String, fetched = some live → 10 < live.length →
        build_context "osu" fetched = build_osu_context live
        ∧ strIncludes (build_context "osu" fetched)
            (String.intercalate ", " (live.take 20)) = true)
  ∧ ((fetched = none ∨ ∃ live, fetched = some live ∧ live.length ≤ 10) →
        build_context "osu" fetched = build_osu_context OSU_MAJORS
        ∧ strIncludes (build_context "osu" fetched)
            (String.intercalate ", " (OSU_MAJORS.take 20)) = true) := by
  constructor
  · intro live he hlen
    subst he
    have h1 : build_context "osu" (some live) = build_osu_context live := by
      show get_osu_context (some live) = build_osu_context live
      dsimp only [get_osu_context]
      rw [if_pos hlen]
    refine ⟨h1, ?_⟩
    rw [h1]
    exact sample_in_build_osu_context live (by omega)
  · intro h
    have h1 : build_context "osu" fetched = build_osu_context OSU_MAJORS := by
      show get_osu_context fetched = build_osu_context OSU_MAJORS
      rcases h with rfl | ⟨live, rfl, hle⟩
      · rfl
      · dsimp only [get_osu_context]
        rw [if_neg (by omega)]
    refine ⟨h1, ?_⟩
    rw [h1]
    exact sample_in_build_osu_context OSU_MAJORS (by decide)

/-- Witness for C2: at an 11-entry fetched list the live list is embedded; at
a 2-entry fetched list and at a failed fetch the static fallback is used. -/
theorem osu_context_fallback_policy_witness :
    build_context "osu" (some ["A", "B", "C", "D", "E", "F", "G", "H", "I", "J", "K"])
      = build_osu_context ["A", "B", "C", "D", "E", "F", "G", "H", "I", "J", "K"]
  ∧ build_context "osu" (some ["A", "B"]) = build_osu_context OSU_MAJORS
  ∧ build_context "osu" none = build_osu_context OSU_MAJORS :=
  ⟨((osu_context_fallback_policy _).1 _ rfl (by decide)).1,
   ((osu_context_fallback_policy _).2 (Or.inr ⟨_, rfl, by decide⟩)).1,
   ((osu_context_fallback_policy _).2 (Or.inl rfl)).1⟩

/-- C3: the claim states every dispatcher failure increments an error-kind
counter before surfacing; this is false for the generic failure kind, whose
except-branch raises without touching `OLLAMA_ERRORS`: at the concrete
failure `otherFailure "boom"` the list of incremented labels is empty. -/
theorem ollama_generic_failure_increments_no_counter :
    (process_with_ollama_failure "http://localhost:11434"
      (BackendFailure.otherFailure "boom")).1 = [] := rfl

/-- C3 (amended): connection and timeout failures increment the
`OLLAMA_ERRORS` counter labeled with their error kind before the failure is
surfaced; generic failures surface without incrementing any error counter. -/
theorem ollama_error_counter_policy (url emsg : String) :
    (process_with_ollama_failure url BackendFailure.connectionRefused).1 = ["connection"]
  ∧ (process_with_ollama_failure url BackendFailure.timedOut).1 = ["timeout"]
  ∧ (process_with_ollama_failure url (BackendFailure.otherFailure emsg)).1 = [] :=
  ⟨rfl, rfl, rfl⟩

/-- C4: for every message in which at least one OSU keyword and at least one
technical keyword occur (as substrings of the lower-cased message, the
matching the source uses), `detect_question_type` returns "osu": OSU
membership takes precedence. -/
theorem classify_osu_precedence (message : String)
    (hosu : osu_keywords.any
      (fun keyword => strIncludes (lowerStr message) keyword) = true)
    (_htech : code_keywords.any
      (fun keyword => strIncludes (lowerStr message) keyword) = true) :
    detect_question_type message = "osu" := by
  dsimp only [detect_question_type]
  simp [hosu]

/-- Witness for C4: "osu python" contains the OSU keyword "osu" and the
technical keyword "python", and is classified "osu". -/
theorem classify_osu_precedence_witness :
    osu_keywords.any
      (fun keyword => strIncludes (lowerStr "osu python") keyword) = true
  ∧ code_keywords.any
      (fun keyword => strIncludes (lowerStr "osu python") keyword) = true
  ∧ detect_question_type "osu python" = "osu" :=
  ⟨by decide, by decide, classify_osu_precedence "osu python" (by decide) (by decide)⟩

/-- C5: the dispatcher's model and timeout depend only on the category
(the message and system prompt are universally quantified): technical
selects "deepseek-coder" with timeout 90, osu and general select "phi"
with timeout 70. -/
theorem dispatch_model_timeout_policy (message system_prompt : String) :
    ((process_with_ollama_request message system_prompt "technical").1.model
        = "deepseek-coder"
      ∧ (process_with_ollama_request message system_prompt "technical").2 = 90)
  ∧ ((process_with_ollama_request message system_prompt "osu").1.model = "phi"
      ∧ (process_with_ollama_request message system_prompt "osu").2 = 70)
  ∧ ((process_with_ollama_request message system_prompt "general").1.model = "phi"
      ∧ (process_with_ollama_request message system_prompt "general").2 = 70) :=
  ⟨⟨rfl, rfl⟩, ⟨rfl, rfl⟩, ⟨rfl, rfl⟩⟩

/-- C6: `detect_question_type` is total (it is a function into `String` in
this embedding, mirroring a Python function with no raise path) and returns
"general" exactly when no OSU keyword and no technical keyword occurs in the
lower-cased message; in particular the empty string is classified
"general". -/
theorem classify_general_iff_no_keyword :
    (∀ message : String,
      detect_question_type message = "general" ↔
        (osu_keywords.any
            (fun keyword => strIncludes (lowerStr message) keyword) = false
          ∧ code_keywords.any
              (fun keyword => strIncludes (lowerStr message) keyword) = false))
  ∧ detect_question_type "" = "general" := by
  constructor
  · intro message
    dsimp only [detect_question_type]
    cases h1 : osu_keywords.any (fun keyword => strIncludes (lowerStr message) keyword) with
    | true => simp [h1]
    | false =>
        cases h2 : code_keywords.any (fun keyword => strIncludes (lowerStr message) keyword) with
        | true => simp [h1, h2]
        | false => simp [h1, h2]
  · decide

/-- C7: for every message, system prompt and category, the payload handed to
the backend carries the prompt "system prompt, user-turn marker, raw message,
assistant-turn marker" concatenated in that order, and is a non-streaming
request (stream = false). -/
theorem dispatch_prompt_assembly (message system_prompt question_type : String) :
    (process_with_ollama_request message system_prompt question_type).1.prompt
        = system_prompt ++ "\n\nUser: " ++ message ++ "\n\nAssistant:"
  ∧ (process_with_ollama_request message system_prompt question_type).1.stream = false :=
  ⟨rfl, rfl⟩

/-- C8: "What is the add/drop deadline?" is classified "osu", and for every
reference-dataset fetch outcome the osu context contains "Jan 16" and a
BuckeyeLink reference. -/
theorem adddrop_deadline_scenario :
    detect_question_type "What is the add/drop deadline?" = "osu"
  ∧ ∀ fetched : Option (List String),
      strIncludes (build_context "osu" fetched) "Jan 16" = true
      ∧ strIncludes (build_context "osu" fetched) "BuckeyeLink" = true := by
  constructor
  · decide
  · intro fetched
    obtain ⟨l, hl⟩ := get_osu_context_cases fetched
    have hb : build_context "osu" fetched = build_osu_context l := hl
    rw [hb]
    exact ⟨jan16_in_build_osu_context l, buckeyelink_in_build_osu_context l⟩

/-- C9: the technical context always contains the markdown code-fence
formatting instruction (a fence marker and the code-block instruction text),
and for every fetch outcome the general context is strictly shorter than the
osu context. -/
theorem technical_fence_and_general_shorter (fetched : Option (List String)) :
    strIncludes (build_context "technical" fetched) "```" = true
  ∧ strIncludes (build_context "technical" fetched) "markdown code blocks" = true
  ∧ (build_context "general" fetched).length < (build_context "osu" fetched).length := by
  refine ⟨?_, ?_, ?_⟩
  · show strIncludes get_code_context "```" = true
    decide
  · show strIncludes get_code_context "markdown code blocks" = true
    decide
  · obtain ⟨l, hl⟩ := get_osu_context_cases fetched
    have hb : build_context "osu" fetched = build_osu_context l := hl
    have hg : build_context "general" fetched = "Helpful assistant. Answer concisely." := rfl
    rw [hb, hg]
    have h4 : ("Helpful assistant. Answer concisely." : String).length
        < osu_context_header.length := by decide
    exact lt_of_lt_of_le h4 (header_length_le_build_osu_context l)

/-- C10: keyword matching is case-insensitive substring containment over the
whole message: "paddle" contains the OSU keyword "add" only as a fragment of
a longer word and is classified "osu", and so is its upper-cased form. -/
theorem classify_matches_substring_fragments :
    detect_question_type "paddle" = "osu"
  ∧ detect_question_type "PADDLE" = "osu" := by
  exact ⟨by decide, by decide⟩
